import Mathlib

/-!
# Verification of the `steady` UI prototype against its specification

The repository is a set of React UI prototype iterations for a gig-driver
earnings companion.  All numeric behaviour in the source lives in a handful of
small arithmetic expressions over the user-entered `weeklyGoal`, hardcoded data
series, a string-keyed screen switch, and a `localStorage`-backed
initialisation.  This file gives a shallow embedding of those parts:

* JavaScript numeric operations used by the source (`Math.round`, `Math.min`,
  `parseInt`) are modelled over `ℚ` / `ℤ` / `String`;
* each screen's goal-derived rendered values are embedded as functions of the
  goal (the source components are pure in their props and local constants);
* the navigation state machines of `frontend/App.tsx` and the `part_004`
  `App` are embedded as explicit state types with step functions;
* the statistics engine the specification describes (steadiness score,
  coefficient of variation, forecast intervals) is absent from `src/`; where a
  claim is about that engine we model the definitions from the specification's
  own formulas, marked `Modelled from the spec:`.
-/

/-! ## JavaScript numeric primitives -/

/-- JavaScript `Math.round x`: rounds to the nearest integer, halves toward
positive infinity, i.e. `⌊x + 1/2⌋`. -/
def jsRound (x : ℚ) : ℤ := Int.floor (x + 1/2)

/-! ## `ForecastDetailScreen` (src/unnamed/part_004)

`const baseForecast = Math.round(weeklyGoal * 0.95);`
`const lowerBound  = Math.round(weeklyGoal * 0.85);`
`const upperBound  = Math.round(weeklyGoal * 1.10);`
The screen renders `$${baseForecast}`, `± $${upperBound - baseForecast}` and
`Likely range: $${lowerBound} – $${upperBound}`. -/

def baseForecast (weeklyGoal : ℚ) : ℤ := jsRound (weeklyGoal * (95/100))

def lowerBound (weeklyGoal : ℚ) : ℤ := jsRound (weeklyGoal * (85/100))

def upperBound (weeklyGoal : ℚ) : ℤ := jsRound (weeklyGoal * (110/100))

/-- The three forecast figures of `ForecastDetailScreen`, as the component
computes them from its props and local state.  `activeFilter` is the only
other piece of component state; the forecast numbers do not read it. -/
def forecastDetailView (weeklyGoal : ℚ) (activeFilter : Option String) :
    ℤ × ℤ × ℤ :=
  (baseForecast weeklyGoal, lowerBound weeklyGoal, upperBound weeklyGoal)

/-! ## `DashboardScreen` (src/frontend2/src/components/DashboardScreen.tsx)

`const currentProgress = 745;` and the goal-progress block renders
`Math.round((currentProgress / weeklyGoal) * 100)` as text,
`Math.min((currentProgress / weeklyGoal) * 100, 100)` as the bar width, and
`weeklyGoal - currentProgress` in the "Drive $… more" line. -/

def currentProgress : ℚ := 745

def goalPercentText (weeklyGoal : ℚ) : ℚ :=
  (jsRound (currentProgress / weeklyGoal * 100) : ℚ)

def goalBarWidth (weeklyGoal : ℚ) : ℚ :=
  min (currentProgress / weeklyGoal * 100) 100

def goalRemaining (weeklyGoal : ℚ) : ℚ := weeklyGoal - currentProgress

/-! ## `InsightsScreen` (src/unnamed/part_005)

`const extraFromPeak = Math.round(weeklyGoal * 0.18);` -/

def extraFromPeak (weeklyGoal : ℚ) : ℚ := (jsRound (weeklyGoal * (18/100)) : ℚ)

/-- The `"± $"` figure rendered by `ForecastDetailScreen`:
`upperBound - baseForecast`, as a rational. -/
def forecastPlusMinus (weeklyGoal : ℚ) : ℚ :=
  (upperBound weeklyGoal : ℚ) - (baseForecast weeklyGoal : ℚ)

/-- `$${baseForecast}` as a rational-valued rendered figure. -/
def baseForecastD (weeklyGoal : ℚ) : ℚ := (baseForecast weeklyGoal : ℚ)

/-- `$${lowerBound}` as a rational-valued rendered figure. -/
def lowerBoundD (weeklyGoal : ℚ) : ℚ := (lowerBound weeklyGoal : ℚ)

/-- `$${upperBound}` as a rational-valued rendered figure. -/
def upperBoundD (weeklyGoal : ℚ) : ℚ := (upperBound weeklyGoal : ℚ)

/-- The goal itself as rendered (`$${weeklyGoal} goal` on the dashboard,
`$${tempGoal}` on the profile screen, `$${weeklyGoal}` during onboarding). -/
def goalDisplay (weeklyGoal : ℚ) : ℚ := weeklyGoal

/-- A hardcoded rendered figure (e.g. `forecastAmount = 910`), as a constant
function of the goal. -/
def litFig (k : ℚ) (weeklyGoal : ℚ) : ℚ := k

/-- Every numeric figure the screens render, as a function of the user-entered
`weeklyGoal` (the only user input that reaches any numeric expression).
Constants collect the hardcoded figures of the dashboard, forecast, insights
and trends screens (910, 65, 78, 9, 18, 12, 34, 23, 745, 872, 935, 4, 930,
60, 72, 865, 85, 42, 24, 35, 28, 14, 8); the rest are the goal-derived
expressions embedded above. -/
def renderedValueFns : List (ℚ → ℚ) :=
  [litFig 910, litFig 65, litFig 78, litFig 9, litFig 18, litFig 12,
   litFig 34, litFig 23, litFig 745, litFig 872, litFig 935, litFig 4,
   litFig 930, litFig 60, litFig 72, litFig 865, litFig 85, litFig 42,
   litFig 24, litFig 35, litFig 28, litFig 14, litFig 8,
   baseForecastD, lowerBoundD, upperBoundD, forecastPlusMinus,
   extraFromPeak, goalDisplay, goalPercentText, goalBarWidth, goalRemaining]

/-- The rendered figure is a hardcoded constant (for positive goals). -/
def IsHardcoded (f : ℚ → ℚ) : Prop :=
  ∃ k : ℚ, ∀ g : ℚ, 0 < g → f g = k

/-- The rendered figure is a scalar multiple `c * weeklyGoal` of the goal,
possibly rounded as in `Math.round(weeklyGoal * 0.95)`. -/
def IsScalarOfGoal (f : ℚ → ℚ) : Prop :=
  ∃ c : ℚ, (∀ g : ℚ, 0 < g → f g = c * g) ∨
    (∀ g : ℚ, 0 < g → f g = (jsRound (c * g) : ℚ))

/-- The rendered figure is one of the goal-progress expressions of the
dashboard: the rounded percentage `round(74500 / goal)`, the clamped bar
width `min(74500 / goal, 100)`, or the remainder `goal - 745`. -/
def IsGoalProgressForm (f : ℚ → ℚ) : Prop :=
  (∀ g : ℚ, 0 < g → f g = (jsRound (74500 / g) : ℚ)) ∨
  (∀ g : ℚ, 0 < g → f g = min (74500 / g) 100) ∨
  (∀ g : ℚ, 0 < g → f g = g - 745)

/-- The rendered figure is a difference of two rounded scalar multiples of the
goal, as in `upperBound - baseForecast`. -/
def IsRoundedDiff (f : ℚ → ℚ) : Prop :=
  ∃ c₁ c₂ : ℚ, ∀ g : ℚ, 0 < g →
    f g = (jsRound (c₁ * g) : ℚ) - (jsRound (c₂ * g) : ℚ)

/-! ## The hardcoded earnings series (src/unnamed/part_001, `ForecastScreen`) -/

/-- One row of the `weeklyData` array of the frontend `ForecastScreen`. -/
structure WeekEntry where
  week : String
  earnings : ℚ
  predicted : Bool
  holiday : Bool
  weather : String

/-- The `weeklyData` array of `ForecastScreen`, verbatim. -/
def weeklyData : List WeekEntry :=
  [⟨"Aug 14", 840, false, false, "sunny"⟩,
   ⟨"Aug 21", 780, false, false, "sunny"⟩,
   ⟨"Aug 28", 920, false, false, "rainy"⟩,
   ⟨"Sep 4", 810, false, false, "sunny"⟩,
   ⟨"Sep 11", 950, false, false, "rainy"⟩,
   ⟨"Sep 18", 770, false, false, "sunny"⟩,
   ⟨"Sep 25", 890, false, false, "mixed"⟩,
   ⟨"Oct 2", 940, false, true, "sunny"⟩,
   ⟨"Oct 9", 820, false, false, "sunny"⟩,
   ⟨"Oct 16", 860, false, false, "sunny"⟩,
   ⟨"Oct 23", 880, false, false, "mixed"⟩,
   ⟨"Oct 30", 930, true, false, "mixed"⟩,
   ⟨"Nov 6", 890, true, false, "sunny"⟩]

/-- The 12-period earnings series of the claim: the earnings of the first 12
rows of `weeklyData`. -/
def weeklyData12 : List ℚ := (weeklyData.take 12).map WeekEntry.earnings

/-! ## Statistics (Modelled from the spec)

No statistical computation exists under `src/`; the spec's §3/§4.2 define the
estimator the claims refer to.  Modelled from the spec: mean and sample
standard deviation of `gross_earnings` over a window, `CV = σ/μ`. -/

/-- Modelled from the spec: the mean `μ` of a window of gross earnings. -/
def mean (l : List ℚ) : ℚ := l.sum / l.length

/-- Modelled from the spec: the sample variance (denominator `n - 1`) of a
window of gross earnings. -/
def sampleVariance (l : List ℚ) : ℚ :=
  ((l.map fun x => (x - mean l) ^ 2).sum) / ((l.length : ℚ) - 1)

/-- Modelled from the spec: the coefficient of variation, sample standard
deviation divided by the mean. -/
noncomputable def coefficientOfVariation (l : List ℚ) : ℝ :=
  Real.sqrt ((sampleVariance l : ℚ) : ℝ) / ((mean l : ℚ) : ℝ)

/-! ## Navigation (src/frontend/App.tsx)

`App` keeps `currentScreen : string` and `isLoggedIn : boolean` in state;
`renderScreen` is a string-keyed switch whose `default` case returns
`<DashboardScreen />`. -/

/-- The data screen components `renderScreen` can return. -/
inductive Screen where
  | dashboard
  | forecast
  | insights
  | trends
  | profile
  deriving DecidableEq, Repr

/-- The `renderScreen` switch of `frontend/App.tsx`: five string cases and a
`default` returning the dashboard. -/
def renderScreen (currentScreen : String) : Screen :=
  if currentScreen = "dashboard" then .dashboard
  else if currentScreen = "forecast" then .forecast
  else if currentScreen = "insights" then .insights
  else if currentScreen = "trends" then .trends
  else if currentScreen = "profile" then .profile
  else .dashboard

/-- The screen ids the switch recognises (also the `navItems` ids of the
`Navigation` component). -/
def knownScreens : List String :=
  ["dashboard", "forecast", "insights", "trends", "profile"]

/-- The component state of `frontend/App.tsx`. -/
structure AppState where
  currentScreen : String
  isLoggedIn : Bool
  deriving DecidableEq, Repr

/-- Initial state: `useState('dashboard')`, `useState(false)`. -/
def initialAppState : AppState := ⟨"dashboard", false⟩

/-- `handleLogin`: `setIsLoggedIn(true)`. -/
def handleLogin (st : AppState) : AppState := { st with isLoggedIn := true }

/-- `handleLogout`: `setIsLoggedIn(false); setCurrentScreen('dashboard')`. -/
def handleLogout (st : AppState) : AppState :=
  { st with isLoggedIn := false, currentScreen := "dashboard" }

/-- `handleScreenChange`: `setCurrentScreen(screen)` — accepts any string,
with no validation. -/
def handleScreenChange (st : AppState) (screen : String) : AppState :=
  { st with currentScreen := screen }

/-- `handleBackToDashboard`: `setCurrentScreen('dashboard')`. -/
def handleBackToDashboard (st : AppState) : AppState :=
  { st with currentScreen := "dashboard" }

/-- The events the component's handlers react to. -/
inductive AppEvent where
  | login
  | logout
  | screenChange (screen : String)
  | backToDashboard

/-- One handler invocation. -/
def stepApp (st : AppState) : AppEvent → AppState
  | .login => handleLogin st
  | .logout => handleLogout st
  | .screenChange s => handleScreenChange st s
  | .backToDashboard => handleBackToDashboard st

/-- States reachable from the initial state through handler invocations. -/
inductive ReachableApp : AppState → Prop where
  | init : ReachableApp initialAppState
  | step {st : AppState} (e : AppEvent) :
      ReachableApp st → ReachableApp (stepApp st e)

/-- What `App` returns: the login screen alone when logged out, otherwise the
switched data screen together with the `Navigation` bar. -/
inductive RenderOutput where
  | loginOnly
  | mainView (screen : Screen) (navCurrent : String)
  deriving DecidableEq, Repr

/-- The render function of `frontend/App.tsx`:
`if (!isLoggedIn) return <LoginScreen …/>;` then
`renderScreen()` plus `<Navigation currentScreen=… />`. -/
def renderApp (st : AppState) : RenderOutput :=
  if st.isLoggedIn then .mainView (renderScreen st.currentScreen) st.currentScreen
  else .loginOnly

/-! ## The `part_004` `App` handlers

`handleNavigate = (screen: string) => { setCurrentScreen(screen as AppScreen) }`
— the cast is unchecked, so any string is accepted. -/

/-- The screen state of the `part_004` `App` (the string survives the
unchecked `as AppScreen` cast). -/
structure App4State where
  currentScreen : String
  weeklyGoal : ℚ
  deriving DecidableEq, Repr

/-- `handleNavigate` of the `part_004` `App`: stores any string, unvalidated. -/
def handleNavigate (st : App4State) (screen : String) : App4State :=
  { st with currentScreen := screen }

/-! ## `localStorage` initialisation (src/unnamed/part_004, second `App`)

```
const saved = window.localStorage.getItem('steady:weeklyGoal');
const parsed = saved ? parseInt(saved, 10) : NaN;
return Number.isFinite(parsed) && parsed > 0 ? parsed : 1000;
```
-/

/-- The whitespace characters JavaScript's `parseInt` skips (the common
ASCII ones suffice for this model). -/
def jsWhitespace (c : Char) : Bool :=
  c = ' ' ∨ c = '\t' ∨ c = '\n' ∨ c = '\r'

/-- Value of a list of decimal digit characters. -/
def digitsVal (ds : List Char) : ℤ :=
  ds.foldl (fun acc c => 10 * acc + ((c.toNat : ℤ) - ('0'.toNat : ℤ))) 0

/-- JavaScript `parseInt(s, 10)`: skip leading whitespace, an optional sign,
then the longest prefix of decimal digits; `none` models `NaN` (no digits).
Any parsed value is a finite number. -/
def jsParseInt (s : String) : Option ℤ :=
  let cs := s.data.dropWhile jsWhitespace
  match cs with
  | '-' :: rest =>
    let ds := rest.takeWhile Char.isDigit
    if ds.isEmpty then none else some (-(digitsVal ds))
  | '+' :: rest =>
    let ds := rest.takeWhile Char.isDigit
    if ds.isEmpty then none else some (digitsVal ds)
  | _ =>
    let ds := cs.takeWhile Char.isDigit
    if ds.isEmpty then none else some (digitsVal ds)

/-- The `steady:weeklyGoal` key the initializer reads. -/
def weeklyGoalKey : String := "steady:weeklyGoal"

/-- The `useState` initializer for `weeklyGoal`, as a function of what
`localStorage.getItem('steady:weeklyGoal')` returned (`none` = `null`).
An empty string is falsy in JavaScript, so `saved ? … : NaN` already yields
`NaN` for `""`. -/
def initWeeklyGoal (saved : Option String) : ℤ :=
  match saved with
  | none => 1000
  | some s =>
    if s = "" then 1000
    else
      match jsParseInt s with
      | none => 1000
      | some n => if 0 < n then n else 1000

/-- The initializer applied to a whole `localStorage` store, reading the
single key `steady:weeklyGoal`. -/
def initWeeklyGoalFromStore (store : String → Option String) : ℤ :=
  initWeeklyGoal (store weeklyGoalKey)

/-! ## The steadiness estimator and forecast engine (Modelled from the spec)

The Volatility/Steadiness Estimator and the Forecast Engine exist nowhere
under `src/` (the screens render literal placeholders); §4.2 and §4.3 of the
specification define them.  The definitions below follow the spec's formulas
verbatim. -/

/-- Modelled from the spec: mean of a window of real-valued gross earnings
(the estimator of §4.2 works over a window of the record store). -/
noncomputable def meanW (l : List ℝ) : ℝ := l.sum / l.length

/-- Modelled from the spec: sample variance over a window. -/
noncomputable def sampleVarianceW (l : List ℝ) : ℝ :=
  ((l.map fun x => (x - meanW l) ^ 2).sum) / ((l.length : ℝ) - 1)

/-- Modelled from the spec: `CV = σ/μ` over a window, with `σ` the sample
standard deviation. -/
noncomputable def cvW (l : List ℝ) : ℝ :=
  Real.sqrt (sampleVarianceW l) / meanW l

/-- Modelled from the spec: `score = 100 * exp(-k * CV)` with a fixed decay
constant `k` (§4.2). -/
noncomputable def steadinessScore (k cv : ℝ) : ℝ := 100 * Real.exp (-(k * cv))

/-- Modelled from the spec: the steadiness score of a window. -/
noncomputable def windowScore (k : ℝ) (l : List ℝ) : ℝ :=
  steadinessScore k (cvW l)

/-- Modelled from the spec: `half_width = point_estimate * CV * z` (§4.3). -/
def forecastHalfWidth (pointEstimate cv z : ℚ) : ℚ := pointEstimate * cv * z

/-- Modelled from the spec: `lower_bound = point_estimate - half_width`. -/
def forecastLower (pointEstimate cv z : ℚ) : ℚ :=
  pointEstimate - forecastHalfWidth pointEstimate cv z

/-- Modelled from the spec: `upper_bound = point_estimate + half_width`. -/
def forecastUpper (pointEstimate cv z : ℚ) : ℚ :=
  pointEstimate + forecastHalfWidth pointEstimate cv z

/-! ## Helper lemmas -/

/-- `jsRound` is monotone. -/
lemma jsRound_mono {x y : ℚ} (h : x ≤ y) : jsRound x ≤ jsRound y :=
  Int.floor_le_floor (by linarith)

/-- Evaluation of the dashboard's goal percentage at goal 500. -/
lemma goalPercentText_500 : goalPercentText 500 = 149 := by
  norm_num [goalPercentText, currentProgress, jsRound]

/-- Evaluation of the dashboard's goal percentage at goal 2000. -/
lemma goalPercentText_2000 : goalPercentText 2000 = 37 := by
  norm_num [goalPercentText, currentProgress, jsRound]

/-- Mean of the 12-period series. -/
lemma mean_weeklyData12 : mean weeklyData12 = 5195 / 6 := by
  norm_num [mean, weeklyData12, weeklyData]

/-- Sample variance of the 12-period series. -/
lemma sampleVariance_weeklyData12 : sampleVariance weeklyData12 = 128675 / 33 := by
  norm_num [sampleVariance, mean, weeklyData12, weeklyData]

/-- Every hardcoded figure is a constant function of the goal. -/
lemma isHardcoded_litFig (k : ℚ) : IsHardcoded (litFig k) :=
  ⟨k, fun _ _ => rfl⟩

/-- `baseForecast` is the rounded multiple `0.95 * goal`. -/
lemma isScalar_baseForecastD : IsScalarOfGoal baseForecastD :=
  ⟨95/100, Or.inr fun g _ => by
    unfold baseForecastD baseForecast
    rw [mul_comm g (95/100 : ℚ)]⟩

/-- `lowerBound` is the rounded multiple `0.85 * goal`. -/
lemma isScalar_lowerBoundD : IsScalarOfGoal lowerBoundD :=
  ⟨85/100, Or.inr fun g _ => by
    unfold lowerBoundD lowerBound
    rw [mul_comm g (85/100 : ℚ)]⟩

/-- `upperBound` is the rounded multiple `1.10 * goal`. -/
lemma isScalar_upperBoundD : IsScalarOfGoal upperBoundD :=
  ⟨110/100, Or.inr fun g _ => by
    unfold upperBoundD upperBound
    rw [mul_comm g (110/100 : ℚ)]⟩

/-- `extraFromPeak` is the rounded multiple `0.18 * goal`. -/
lemma isScalar_extraFromPeak : IsScalarOfGoal extraFromPeak :=
  ⟨18/100, Or.inr fun g _ => by
    unfold extraFromPeak
    rw [mul_comm g (18/100 : ℚ)]⟩

/-- The displayed goal is the scalar multiple `1 * goal`. -/
lemma isScalar_goalDisplay : IsScalarOfGoal goalDisplay :=
  ⟨1, Or.inl fun g _ => (one_mul g).symm⟩

/-- The goal-percentage text is the first goal-progress form. -/
lemma isProgress_goalPercentText : IsGoalProgressForm goalPercentText := by
  refine Or.inl fun g _ => ?_
  unfold goalPercentText currentProgress
  rw [div_mul_eq_mul_div]
  norm_num

/-- The progress-bar width is the second goal-progress form. -/
lemma isProgress_goalBarWidth : IsGoalProgressForm goalBarWidth := by
  refine Or.inr (Or.inl fun g _ => ?_)
  unfold goalBarWidth currentProgress
  rw [div_mul_eq_mul_div]
  norm_num

/-- The remaining-to-goal figure is the third goal-progress form. -/
lemma isProgress_goalRemaining : IsGoalProgressForm goalRemaining :=
  Or.inr (Or.inr fun _ _ => rfl)

/-- The `"± $"` figure is a difference of two rounded multiples. -/
lemma isRoundedDiff_forecastPlusMinus : IsRoundedDiff forecastPlusMinus :=
  ⟨110/100, 95/100, fun g _ => by
    unfold forecastPlusMinus upperBound baseForecast
    rw [mul_comm g (110/100 : ℚ), mul_comm g (95/100 : ℚ)]⟩

/-! ## Claim theorems -/

/-- C1 counterexample: the dashboard's goal-progress percentage
`Math.round((745 / weeklyGoal) * 100)` is a rendered numeric value, yet it is
neither a hardcoded constant nor a scalar multiple `c * weeklyGoal` (rounded
or not): it evaluates to 149 at goal 500 and 37 at goal 2000, which no
constant and no single scalar `c` can produce. -/
theorem C1_counterexample :
    goalPercentText ∈ renderedValueFns ∧
    ¬(IsHardcoded goalPercentText ∨ IsScalarOfGoal goalPercentText) := by
  constructor
  · simp [renderedValueFns]
  · rintro (⟨k, hk⟩ | ⟨c, hc | hc⟩)
    · have h1 := hk 500 (by norm_num)
      have h2 := hk 2000 (by norm_num)
      rw [goalPercentText_500] at h1
      rw [goalPercentText_2000] at h2
      rw [← h2] at h1
      norm_num at h1
    · have h1 := hc 500 (by norm_num)
      have h2 := hc 2000 (by norm_num)
      rw [goalPercentText_500] at h1
      rw [goalPercentText_2000] at h2
      linarith
    · have h1 := hc 500 (by norm_num)
      have h2 := hc 2000 (by norm_num)
      rw [goalPercentText_500] at h1
      rw [goalPercentText_2000] at h2
      have h1' : jsRound (c * 500) = 149 := by exact_mod_cast h1.symm
      have h2' : jsRound (c * 2000) = 37 := by exact_mod_cast h2.symm
      unfold jsRound at h1' h2'
      obtain ⟨ha1, hb1⟩ := Int.floor_eq_iff.mp h1'
      obtain ⟨ha2, hb2⟩ := Int.floor_eq_iff.mp h2'
      push_cast at ha1 hb1 ha2 hb2
      linarith

/-- C1 (corrected): every numeric figure the screens render is a hardcoded
constant, a (possibly rounded) scalar multiple of `weeklyGoal`, one of the
dashboard's goal-progress expressions (`round(100·745/goal)`,
`min(100·745/goal, 100)`, `goal − 745`), or the difference of two rounded
multiples (`round(1.10·goal) − round(0.95·goal)`); in particular every
rendered number is a fixed arithmetic function of the user-entered goal and
literals alone. -/
theorem C1_amended_rendered_values :
    ∀ f ∈ renderedValueFns,
      IsHardcoded f ∨ IsScalarOfGoal f ∨ IsGoalProgressForm f ∨
        IsRoundedDiff f := by
  intro f hf
  fin_cases hf
  all_goals first
    | exact Or.inl (isHardcoded_litFig _)
    | exact Or.inr (Or.inl isScalar_baseForecastD)
    | exact Or.inr (Or.inl isScalar_lowerBoundD)
    | exact Or.inr (Or.inl isScalar_upperBoundD)
    | exact Or.inr (Or.inl isScalar_extraFromPeak)
    | exact Or.inr (Or.inl isScalar_goalDisplay)
    | exact Or.inr (Or.inr (Or.inl isProgress_goalPercentText))
    | exact Or.inr (Or.inr (Or.inl isProgress_goalBarWidth))
    | exact Or.inr (Or.inr (Or.inl isProgress_goalRemaining))
    | exact Or.inr (Or.inr (Or.inr isRoundedDiff_forecastPlusMinus))

/-- C1 witness: the amended classification applied to two concrete rendered
figures: the hardcoded forecast amount 910 and the goal-progress percentage. -/
theorem C1_amended_rendered_values_witness :
    (IsHardcoded (litFig 910) ∨ IsScalarOfGoal (litFig 910) ∨
      IsGoalProgressForm (litFig 910) ∨ IsRoundedDiff (litFig 910)) ∧
    (IsHardcoded goalPercentText ∨ IsScalarOfGoal goalPercentText ∨
      IsGoalProgressForm goalPercentText ∨ IsRoundedDiff goalPercentText) :=
  ⟨C1_amended_rendered_values (litFig 910) (by simp [renderedValueFns]),
   C1_amended_rendered_values goalPercentText (by simp [renderedValueFns])⟩

/-- C2 counterexample: the series hardcoded in the forecast screen's
`weeklyData` is exactly the claimed 12 values, but their mean is `5195/6 ≈
865.83`, not `869.2`, and the coefficient of variation is below `0.0765`, so
it is not approximately `0.077`. -/
theorem C2_counterexample :
    weeklyData12 = [840, 780, 920, 810, 950, 770, 890, 940, 820, 860, 880, 930] ∧
    mean weeklyData12 ≠ 4346/5 ∧
    coefficientOfVariation weeklyData12 < 153/2000 := by
  refine ⟨by decide, by rw [mean_weeklyData12]; norm_num, ?_⟩
  unfold coefficientOfVariation
  rw [sampleVariance_weeklyData12, mean_weeklyData12]
  have hm : ((5195/6 : ℚ) : ℝ) = 5195/6 := by norm_num
  have hv : ((128675/33 : ℚ) : ℝ) = 128675/33 := by norm_num
  rw [hm, hv, div_lt_iff₀ (by norm_num : (0:ℝ) < 5195/6)]
  rw [show (153/2000 : ℝ) * (5195/6) = 52989/800 by norm_num]
  rw [Real.sqrt_lt' (by norm_num : (0:ℝ) < 52989/800)]
  norm_num

/-- C2 (corrected): for the 12-period series
`[840,780,920,810,950,770,890,940,820,860,880,930]` the mean of gross
earnings equals `5195/6 ≈ 865.83` and the coefficient of variation (sample
standard deviation over mean) lies strictly between `0.072` and `0.0722`,
i.e. `CV ≈ 0.072`. -/
theorem C2_amended_series_statistics :
    mean weeklyData12 = 5195/6 ∧
    9/125 < coefficientOfVariation weeklyData12 ∧
    coefficientOfVariation weeklyData12 < 361/5000 := by
  refine ⟨mean_weeklyData12, ?_, ?_⟩
  · unfold coefficientOfVariation
    rw [sampleVariance_weeklyData12, mean_weeklyData12]
    have hm : ((5195/6 : ℚ) : ℝ) = 5195/6 := by norm_num
    have hv : ((128675/33 : ℚ) : ℝ) = 128675/33 := by norm_num
    rw [hm, hv, lt_div_iff₀ (by norm_num : (0:ℝ) < 5195/6)]
    rw [show (9/125 : ℝ) * (5195/6) = 3117/50 by norm_num]
    rw [Real.lt_sqrt (by norm_num : (0:ℝ) ≤ 3117/50)]
    norm_num
  · unfold coefficientOfVariation
    rw [sampleVariance_weeklyData12, mean_weeklyData12]
    have hm : ((5195/6 : ℚ) : ℝ) = 5195/6 := by norm_num
    have hv : ((128675/33 : ℚ) : ℝ) = 128675/33 := by norm_num
    rw [hm, hv, div_lt_iff₀ (by norm_num : (0:ℝ) < 5195/6)]
    rw [show (361/5000 : ℝ) * (5195/6) = 375079/6000 by norm_num]
    rw [Real.sqrt_lt' (by norm_num : (0:ℝ) < 375079/6000)]
    norm_num

/-- C3 (confirmed, modelled from the spec): for every decay constant `k > 0`
and every window with at least two entries and positive mean, the steadiness
score `100·exp(-k·CV)` lies in `[0, 100]`, equals exactly 100 when `CV = 0`,
and is strictly decreasing as `CV` increases. -/
theorem C3_steadiness_score_behaviour :
    ∀ k : ℝ, 0 < k →
      (∀ l : List ℝ, 2 ≤ l.length → 0 < meanW l →
        0 ≤ windowScore k l ∧ windowScore k l ≤ 100 ∧
        (cvW l = 0 → windowScore k l = 100)) ∧
      (∀ c₁ c₂ : ℝ, 0 ≤ c₁ → c₁ < c₂ →
        steadinessScore k c₂ < steadinessScore k c₁) := by
  intro k hk
  constructor
  · intro l _ hmean
    have hcv : 0 ≤ cvW l := div_nonneg (Real.sqrt_nonneg _) hmean.le
    refine ⟨?_, ?_, ?_⟩
    · unfold windowScore steadinessScore
      positivity
    · unfold windowScore steadinessScore
      have hexp : Real.exp (-(k * cvW l)) ≤ 1 := by
        rw [Real.exp_le_one_iff]
        have : 0 ≤ k * cvW l := mul_nonneg hk.le hcv
        linarith
      linarith
    · intro h
      unfold windowScore steadinessScore
      rw [h, mul_zero, neg_zero, Real.exp_zero, mul_one]
  · intro c₁ c₂ _ hlt
    unfold steadinessScore
    have hexp : Real.exp (-(k * c₂)) < Real.exp (-(k * c₁)) := by
      rw [Real.exp_lt_exp]
      have : k * c₁ < k * c₂ := by
        exact mul_lt_mul_of_pos_left hlt hk
      linarith
    linarith

/-- C3 witness: at `k = 1` the two-entry constant window `[2, 2]` (mean 2,
`CV = 0`) obeys the bounds, and the score strictly drops from `CV = 0` to
`CV = 1`. -/
theorem C3_steadiness_score_behaviour_witness :
    (0 ≤ windowScore 1 [(2:ℝ), 2] ∧ windowScore 1 [(2:ℝ), 2] ≤ 100 ∧
      (cvW [(2:ℝ), 2] = 0 → windowScore 1 [(2:ℝ), 2] = 100)) ∧
    steadinessScore 1 1 < steadinessScore 1 0 :=
  ⟨(C3_steadiness_score_behaviour 1 one_pos).1 [(2:ℝ), 2] (by norm_num)
      (by norm_num [meanW]),
   (C3_steadiness_score_behaviour 1 one_pos).2 0 1 le_rfl one_pos⟩

/-- Any score map `100·exp(-k·CV)` hitting `≈90` at `CV = 0.10` exceeds
`65.5` at `CV = 0.30`, because `exp(-0.3k) = exp(-0.1k)³ ≥ 0.895³ > 0.655`. -/
lemma score_cv30_of_cv10 {k : ℝ}
    (h : 179/2 ≤ steadinessScore k (1/10)) :
    131/2 < steadinessScore k (3/10) := by
  unfold steadinessScore at h ⊢
  have hapos : 0 < Real.exp (-(k * (1/10))) := Real.exp_pos _
  have ha : (179/200 : ℝ) ≤ Real.exp (-(k * (1/10))) := by linarith
  have h3 : Real.exp (-(k * (3/10))) = Real.exp (-(k * (1/10))) ^ 3 := by
    have harg : -(k * (3/10)) = ((3:ℕ) : ℝ) * (-(k * (1/10))) := by
      push_cast
      ring
    rw [harg, Real.exp_nat_mul]
  rw [h3]
  nlinarith [pow_le_pow_left₀ (by norm_num : (0:ℝ) ≤ 179/200) ha 3]

/-- The decay constant `10·ln(10/9)` sends `CV = 0.10` to a score of exactly
90. -/
lemma score_at_first_calibration :
    steadinessScore (10 * Real.log (10/9)) (1/10) = 90 := by
  unfold steadinessScore
  have harg : -(10 * Real.log (10/9) * (1/10)) = Real.log (9/10) := by
    rw [show (9/10 : ℝ) = (10/9)⁻¹ by norm_num, Real.log_inv]
    ring
  rw [harg, Real.exp_log (by norm_num : (0:ℝ) < 9/10)]
  norm_num

/-- C4 counterexample: no single decay constant `k > 0` makes
`100·exp(-k·CV)` round to 90 at `CV = 0.10`, to 65 at `CV = 0.30` and to 35
at `CV = 0.60` simultaneously. -/
theorem C4_counterexample :
    ¬ ∃ k : ℝ, 0 < k ∧
      |steadinessScore k (1/10) - 90| ≤ 1/2 ∧
      |steadinessScore k (3/10) - 65| ≤ 1/2 ∧
      |steadinessScore k (6/10) - 35| ≤ 1/2 := by
  rintro ⟨k, -, h1, h2, -⟩
  rw [abs_le] at h1 h2
  have h30 := score_cv30_of_cv10 (k := k) (by linarith [h1.1])
  linarith [h2.2]

/-- C4 (corrected): a fixed decay constant matching the first calibration
point exists (`k = 10·ln(10/9)` gives `CV = 0.10 → score = 90` exactly), but
the three stated calibration points are mutually inconsistent: every `k > 0`
whose score rounds to 90 at `CV = 0.10` yields a score above 65.5 at
`CV = 0.30`, so `CV = 0.30 → score ≈ 65` cannot also hold. -/
theorem C4_amended_calibration :
    (∃ k : ℝ, 0 < k ∧ steadinessScore k (1/10) = 90) ∧
    (∀ k : ℝ, 0 < k → |steadinessScore k (1/10) - 90| ≤ 1/2 →
      131/2 < steadinessScore k (3/10)) := by
  constructor
  · refine ⟨10 * Real.log (10/9), ?_, score_at_first_calibration⟩
    have : 0 < Real.log (10/9) := Real.log_pos (by norm_num)
    linarith
  · intro k _ h1
    rw [abs_le] at h1
    exact score_cv30_of_cv10 (k := k) (by linarith [h1.1])

/-- C4 witness: the amended statement applied at the concrete constant
`k = 10·ln(10/9)`, whose score at `CV = 0.10` is exactly 90. -/
theorem C4_amended_calibration_witness :
    131/2 < steadinessScore (10 * Real.log (10/9)) (3/10) := by
  apply C4_amended_calibration.2
  · have : 0 < Real.log (10/9) := Real.log_pos (by norm_num)
    linarith
  · rw [score_at_first_calibration]
    norm_num

/-- C5 (confirmed): the spec's forecast interval satisfies
`lower_bound ≤ point_estimate ≤ upper_bound` whenever the point estimate,
`CV` and `z` are non-negative (first conjunct, modelled from the spec's
`half_width = point_estimate * CV * z`); and in the code, for every
`weeklyGoal` in the slider range `[400, 2000]`,
`Math.round(weeklyGoal*0.85) ≤ Math.round(weeklyGoal*0.95) ≤
Math.round(weeklyGoal*1.10)`. -/
theorem C5_interval_ordered :
    (∀ pe cv z : ℚ, 0 ≤ pe → 0 ≤ cv → 0 ≤ z →
      forecastLower pe cv z ≤ pe ∧ pe ≤ forecastUpper pe cv z) ∧
    (∀ g : ℚ, 400 ≤ g → g ≤ 2000 →
      lowerBound g ≤ baseForecast g ∧ baseForecast g ≤ upperBound g) := by
  constructor
  · intro pe cv z hpe hcv hz
    have hw : 0 ≤ forecastHalfWidth pe cv z :=
      mul_nonneg (mul_nonneg hpe hcv) hz
    unfold forecastLower forecastUpper
    constructor <;> linarith
  · intro g h4 _
    have hg : (0 : ℚ) ≤ g := by linarith
    unfold lowerBound baseForecast upperBound
    constructor <;>
      exact jsRound_mono (mul_le_mul_of_nonneg_left (by norm_num) hg)

/-- C5 witness: the interval ordering at a concrete forecast
(`point_estimate = 900`, `CV = 0.1`, `z = 1.28`) and at `weeklyGoal = 1000`. -/
theorem C5_interval_ordered_witness :
    (forecastLower 900 (1/10) (128/100) ≤ 900 ∧
      (900 : ℚ) ≤ forecastUpper 900 (1/10) (128/100)) ∧
    (lowerBound 1000 ≤ baseForecast 1000 ∧ baseForecast 1000 ≤ upperBound 1000) :=
  ⟨C5_interval_ordered.1 900 (1/10) (128/100) (by norm_num) (by norm_num)
      (by norm_num),
   C5_interval_ordered.2 1000 (by norm_num) (by norm_num)⟩

/-- C6 (confirmed): the forecast figures of `ForecastDetailScreen` are a pure
function of `weeklyGoal`: two evaluations with equal goals agree, regardless
of the only other component state (`activeFilter`); there is no hidden
randomness. -/
theorem C6_forecast_deterministic :
    ∀ (g g' : ℚ) (af af' : Option String), g = g' →
      forecastDetailView g af = forecastDetailView g' af' := by
  intro g g' af af' h
  subst h
  rfl

/-- C6 witness: two evaluations at goal 1000 with different filter states
agree. -/
theorem C6_forecast_deterministic_witness :
    forecastDetailView 1000 (some "Weekday") = forecastDetailView 1000 none :=
  C6_forecast_deterministic 1000 1000 (some "Weekday") none rfl

/-- C7 (confirmed): `renderScreen` maps every string outside
`{'dashboard','forecast','insights','trends','profile'}` to the
`DashboardScreen` (the silent `default` case), and both apps' navigation
handlers store any string without validation. -/
theorem C7_silent_fallback :
    (∀ s : String, s ∉ knownScreens → renderScreen s = Screen.dashboard) ∧
    (∀ (st : AppState) (s : String), (handleScreenChange st s).currentScreen = s) ∧
    (∀ (st : App4State) (s : String), (handleNavigate st s).currentScreen = s) := by
  refine ⟨?_, fun st s => rfl, fun st s => rfl⟩
  intro s hs
  simp only [knownScreens, List.mem_cons, List.not_mem_nil, or_false,
    not_or] at hs
  obtain ⟨h1, h2, h3, h4, h5⟩ := hs
  simp [renderScreen, h1, h2, h3, h4, h5]

/-- C7 witness: the unknown screen string `"bogus"` falls back to the
dashboard, and the handlers accept it unvalidated. -/
theorem C7_silent_fallback_witness :
    renderScreen "bogus" = Screen.dashboard ∧
    (handleScreenChange initialAppState "bogus").currentScreen = "bogus" ∧
    (handleNavigate ⟨"dashboard", 1000⟩ "bogus").currentScreen = "bogus" :=
  ⟨C7_silent_fallback.1 "bogus" (by decide),
   C7_silent_fallback.2.1 initialAppState "bogus",
   C7_silent_fallback.2.2 ⟨"dashboard", 1000⟩ "bogus"⟩

/-- C8 (confirmed): the `localStorage`-backed initializer yields 1000 when the
key is absent or when `parseInt` gives no finite positive value, yields the
parsed integer when that is positive, and is always positive. -/
theorem C8_goal_initialization :
    initWeeklyGoal none = 1000 ∧
    (∀ s : String,
      (jsParseInt s = none ∨ ∃ n : ℤ, jsParseInt s = some n ∧ n ≤ 0) →
      initWeeklyGoal (some s) = 1000) ∧
    (∀ (s : String) (n : ℤ), jsParseInt s = some n → 0 < n →
      initWeeklyGoal (some s) = n) ∧
    (∀ saved : Option String, 0 < initWeeklyGoal saved) := by
  refine ⟨rfl, ?_, ?_, ?_⟩
  · intro s h
    by_cases hs : s = ""
    · simp [initWeeklyGoal, hs]
    · rcases h with h | ⟨n, hn, hle⟩
      · simp [initWeeklyGoal, hs, h]
      · simp [initWeeklyGoal, hs, hn, not_lt.mpr hle]
  · intro s n h hpos
    have hs : s ≠ "" := by
      intro he
      rw [he, show jsParseInt "" = none from by decide] at h
      exact Option.noConfusion h
    simp [initWeeklyGoal, hs, h, hpos]
  · intro saved
    rcases saved with _ | s
    · norm_num [initWeeklyGoal]
    · by_cases hs : s = ""
      · simp [initWeeklyGoal, hs]
      · rcases h : jsParseInt s with _ | n
        · simp [initWeeklyGoal, hs, h]
        · simp only [initWeeklyGoal, if_neg hs, h]
          split_ifs with hn
          · exact hn
          · norm_num

/-- C8 witness: concrete stored strings — `"abc"` (NaN) and `"0"` give 1000,
`"1250"` gives 1250, and a negative entry still yields a positive goal. -/
theorem C8_goal_initialization_witness :
    initWeeklyGoal (some "abc") = 1000 ∧
    initWeeklyGoal (some "0") = 1000 ∧
    initWeeklyGoal (some "1250") = 1250 ∧
    0 < initWeeklyGoal (some "-5") :=
  ⟨C8_goal_initialization.2.1 "abc" (Or.inl (by decide)),
   C8_goal_initialization.2.1 "0" (Or.inr ⟨0, by decide, le_rfl⟩),
   C8_goal_initialization.2.2.1 "1250" 1250 (by decide) (by decide),
   C8_goal_initialization.2.2.2 (some "-5")⟩

/-- C9 (confirmed): in every reachable state of `frontend/App.tsx` with
`isLoggedIn = false` the component renders only the `LoginScreen` (no data
screen, no `Navigation` bar), and `handleLogout` resets `currentScreen` to
`'dashboard'` and lands in a login-only render. -/
theorem C9_logged_out_sees_login_only :
    (∀ st : AppState, ReachableApp st → st.isLoggedIn = false →
      renderApp st = RenderOutput.loginOnly) ∧
    (∀ st : AppState, (handleLogout st).currentScreen = "dashboard" ∧
      renderApp (handleLogout st) = RenderOutput.loginOnly) := by
  constructor
  · intro st _ h
    simp [renderApp, h]
  · intro st
    exact ⟨rfl, by simp [renderApp, handleLogout]⟩

/-- C9 witness: the initial state is reachable and logged out, and renders
only the login screen; logging out from a main screen returns to
`'dashboard'`. -/
theorem C9_logged_out_sees_login_only_witness :
    renderApp initialAppState = RenderOutput.loginOnly ∧
    (handleLogout ⟨"profile", true⟩).currentScreen = "dashboard" :=
  ⟨C9_logged_out_sees_login_only.1 initialAppState ReachableApp.init rfl,
   (C9_logged_out_sees_login_only.2 ⟨"profile", true⟩).1⟩

/-- C10 (confirmed): for every positive goal, the dashboard's progress-bar
width `min((745 / weeklyGoal) * 100, 100)` never exceeds 100 and saturates at
100 as soon as progress exceeds the goal, while the adjacent percentage text
`Math.round((745 / weeklyGoal) * 100)` is not clamped: at goal 500 the bar is
at 100 but the text reads 149. -/
theorem C10_bar_clamped_text_not :
    (∀ g : ℚ, 0 < g →
      goalBarWidth g = min (currentProgress / g * 100) 100 ∧
      goalBarWidth g ≤ 100 ∧
      (g < currentProgress → goalBarWidth g = 100)) ∧
    (goalBarWidth 500 = 100 ∧ goalPercentText 500 = 149 ∧
      (100 : ℚ) < goalPercentText 500) := by
  constructor
  · intro g hg
    refine ⟨rfl, min_le_right _ _, ?_⟩
    intro hlt
    unfold goalBarWidth
    have h1 : (100 : ℚ) ≤ currentProgress / g * 100 := by
      have : (1 : ℚ) ≤ currentProgress / g := (one_le_div hg).mpr hlt.le
      linarith
    exact min_eq_right h1
  · refine ⟨?_, goalPercentText_500, ?_⟩
    · norm_num [goalBarWidth, currentProgress]
    · rw [goalPercentText_500]; norm_num

/-- C10 witness: the clamping at the concrete goal 1000 (progress 745 below
goal: width 74.5, text 75). -/
theorem C10_bar_clamped_text_not_witness :
    goalBarWidth 1000 ≤ 100 :=
  (C10_bar_clamped_text_not.1 1000 (by norm_num)).2.1
